import Mathlib

/-!
Verification of the PPM pulse-edge decoder (`src/lib.rs` of the
`ppm_decode` crate).

The decoder is a two-state machine (`Scanning` / `Synced`) driven by one
edge timestamp per call of `handle_pulse_start`.  All timer quantities in
the source are `u32` and channel counts are `u8`; they are modelled as
`Nat`.  For inputs in the documented range (timestamps in
`[0, max_ppm_time]`, so that the `u32` subtractions of the source never
underflow and the sum `(max_ppm_time - last) + count` never exceeds
`u32::MAX`) the `Nat` arithmetic below coincides with the source's `u32`
arithmetic.

The source writes `chan_values[chan_count]` with no bounds check; in Rust
that indexing operation panics when `chan_count` reaches the array
capacity `MAX_PPM_CHANNELS`.  The fallible step is therefore embedded as
an `Option`-returning function: `none` models the panic, and every
non-panicking path returns `some` of the updated parser.  The fixed
array `[PpmTime; MAX_PPM_CHANNELS]` is modelled as a total function
`Nat → Nat` together with the panic guard at the capacity bound.
-/

/-- Default minimum channel value (`MIN_CHAN_VAL` in the source). -/
def MIN_CHAN_VAL : Nat := 800

/-- Default maximum channel value (`MAX_CHAN_VAL`). -/
def MAX_CHAN_VAL : Nat := 2200

/-- Default midpoint channel value (`MID_CHAN_VAL`). -/
def MID_CHAN_VAL : Nat := (MAX_CHAN_VAL + MIN_CHAN_VAL) / 2

/-- Default minimum gap between frames (`MIN_SYNC_WIDTH`). -/
def MIN_SYNC_WIDTH : Nat := 4000

/-- Default minimum number of channels per frame (`MIN_PPM_CHANNELS`). -/
def MIN_PPM_CHANNELS : Nat := 5

/-- Maximum PPM channels the library supports (`MAX_PPM_CHANNELS`). -/
def MAX_PPM_CHANNELS : Nat := 20

/-- A single group of PPM channel values (`PpmFrame`).  The fixed-size
array `chan_values : [PpmTime; MAX_PPM_CHANNELS]` is modelled as a total
function from index to value; only indices below `chan_count` are
meaningful. -/
structure PpmFrame where
  chan_values : Nat → Nat
  chan_count : Nat

/-- Configuration values for `PpmParser` (`ParserConfig`). -/
structure ParserConfig where
  min_chan_value : Nat
  max_chan_value : Nat
  mid_chan_value : Nat
  min_sync_width : Nat
  min_channels : Nat
  max_ppm_time : Nat

/-- `impl Default for ParserConfig`. -/
def ParserConfig.default : ParserConfig :=
  { min_chan_value := MIN_CHAN_VAL
    max_chan_value := MAX_CHAN_VAL
    mid_chan_value := MID_CHAN_VAL
    min_sync_width := MIN_SYNC_WIDTH
    min_channels := MIN_PPM_CHANNELS
    max_ppm_time := 4294967295 }

/-- Parser state (`enum ParserState`). -/
inductive ParserState where
  | Scanning : ParserState
  | Synced : ParserState
deriving DecidableEq

/-- The main PPM decoder (`struct PpmParser`). -/
structure PpmParser where
  config : ParserConfig
  state : ParserState
  last_pulse_start : Nat
  working_frame : PpmFrame
  parsed_frame : Option PpmFrame

/-- `PpmParser::new`. -/
def PpmParser.new : PpmParser :=
  { config := ParserConfig.default
    working_frame := { chan_values := fun _ => 0, chan_count := 0 }
    parsed_frame := none
    state := ParserState.Scanning
    last_pulse_start := 0 }

/-- `PpmParser::set_channel_limits`. -/
def PpmParser.set_channel_limits (p : PpmParser) (min max : Nat) : PpmParser :=
  { p with config := { p.config with
      min_chan_value := min
      max_chan_value := max
      mid_chan_value := (max + min) / 2 } }

/-- `PpmParser::set_sync_width`. -/
def PpmParser.set_sync_width (p : PpmParser) (width : Nat) : PpmParser :=
  { p with config := { p.config with min_sync_width := width } }

/-- `PpmParser::set_minimum_channels`. -/
def PpmParser.set_minimum_channels (p : PpmParser) (channels : Nat) : PpmParser :=
  { p with config := { p.config with min_channels := channels } }

/-- `PpmParser::set_max_ppm_time`. -/
def PpmParser.set_max_ppm_time (p : PpmParser) (value : Nat) : PpmParser :=
  { p with config := { p.config with max_ppm_time := value } }

/-- `PpmParser::next_frame`: `self.parsed_frame.take()`.  The source
mutates the parser and returns the option; here the returned option is
paired with the updated parser. -/
def PpmParser.next_frame (p : PpmParser) : Option PpmFrame × PpmParser :=
  (p.parsed_frame, { p with parsed_frame := none })

/-- The width computation at the top of `PpmParser::handle_pulse_start`:
`if count > last { count - last } else { (max_ppm_time - last) + count }`.
Note the strict comparison in the source: at `count == last` the second
branch is taken. -/
def pulseWidth (cfg : ParserConfig) (last t : Nat) : Nat :=
  if last < t then t - last else cfg.max_ppm_time - last + t

/-- Write to the fixed-size channel array at one index (the Rust
assignment `chan_values[i] = v`, for a caller that has already
established `i` is in bounds). -/
def arraySet (f : Nat → Nat) (i v : Nat) : Nat → Nat :=
  fun j => if j = i then v else f j

/-- `PpmParser::handle_pulse_start`.  The source updates
`last_pulse_start` unconditionally before dispatching on the state; here
that update is folded into each branch of the dispatch, with identical
net effect.  In the `Synced` state the source compares the width against
the compile-time constant `MIN_SYNC_WIDTH`, not the configurable
`config.min_sync_width` (which is only consulted in `Scanning`).  The
unchecked array write `chan_values[chan_count] = width` panics in Rust
when `chan_count ≥ MAX_PPM_CHANNELS`; that panic is modelled by `none`. -/
def handle_pulse_start (p : PpmParser) (t : Nat) : Option PpmParser :=
  match p.state with
  | ParserState.Scanning =>
    if p.config.min_sync_width ≤ pulseWidth p.config p.last_pulse_start t then
      some { p with last_pulse_start := t
                    state := ParserState.Synced
                    working_frame := { p.working_frame with chan_count := 0 } }
    else
      some { p with last_pulse_start := t }
  | ParserState.Synced =>
    if MIN_SYNC_WIDTH ≤ pulseWidth p.config p.last_pulse_start t then
      if p.config.min_channels ≤ p.working_frame.chan_count then
        some { p with last_pulse_start := t
                      parsed_frame := some p.working_frame
                      working_frame := { p.working_frame with chan_count := 0 } }
      else
        some { p with last_pulse_start := t
                      parsed_frame := none
                      working_frame := { p.working_frame with chan_count := 0 } }
    else
      if p.config.min_chan_value ≤ pulseWidth p.config p.last_pulse_start t ∧
          pulseWidth p.config p.last_pulse_start t ≤ p.config.max_chan_value then
        if p.working_frame.chan_count < MAX_PPM_CHANNELS then
          some { p with last_pulse_start := t
                        working_frame :=
                          { chan_values :=
                              arraySet p.working_frame.chan_values
                                p.working_frame.chan_count
                                (pulseWidth p.config p.last_pulse_start t)
                            chan_count := p.working_frame.chan_count + 1 } }
        else
          none
      else
        some { p with last_pulse_start := t
                      state := ParserState.Scanning
                      working_frame := { p.working_frame with chan_count := 0 } }

/-- Run `handle_pulse_start` over a list of edge timestamps, aborting
(`none`) if any step panics. -/
def runPulses (p : PpmParser) : List Nat → Option PpmParser
  | [] => some p
  | t :: ts => (handle_pulse_start p t).bind fun q => runPulses q ts

/-- The last timestamp of a pulse train (or the starting
`last_pulse_start` for an empty train). -/
def lastOf (last : Nat) : List Nat → Nat
  | [] => last
  | t :: ts => lastOf t ts

/-- The successive gap widths produced by a pulse train starting from a
given `last_pulse_start`. -/
def widthsOf (cfg : ParserConfig) (last : Nat) : List Nat → List Nat
  | [] => []
  | t :: ts => pulseWidth cfg last t :: widthsOf cfg t ts

/-- Successive in-bounds writes into the channel array starting at a
given index: the cumulative effect of a block of channel gaps. -/
def writeSeq (f : Nat → Nat) (c : Nat) : List Nat → Nat → Nat
  | [] => f
  | w :: ws => writeSeq (arraySet f c w) (c + 1) ws

/-- The width formula exactly as the specification states it, with a
non-strict comparison `timestamp ≥ last` selecting plain subtraction.
This definition follows the spec text and is compared against
`pulseWidth`, which follows the source. -/
def specWidthClaim (cfg : ParserConfig) (last t : Nat) : Nat :=
  if last ≤ t then t - last else cfg.max_ppm_time - last + t

/-- A parser whose sync width has been configured to 2490, as in the
crate's own `process_pulses` test. -/
def c1_decoder : PpmParser := PpmParser.new.set_sync_width 2490

/-- A default parser receiving one sync gap followed by 21 channel gaps
of 1500 each: 4000 enters Synced, and each subsequent edge is 1500
later. -/
def c3_input : List Nat :=
  [4000, 5500, 7000, 8500, 10000, 11500, 13000, 14500, 16000, 17500,
   19000, 20500, 22000, 23500, 25000, 26500, 28000, 29500, 31000, 32500,
   34000, 35500]

/-- A concrete parser sitting just after a frame boundary in `Synced`,
with an empty working frame. -/
def c4_start : PpmParser :=
  { config := ParserConfig.default
    state := ParserState.Synced
    last_pulse_start := 4000
    working_frame := { chan_values := fun _ => 0, chan_count := 0 }
    parsed_frame := none }

/-- Twenty-one edges spaced 1000 apart after an edge at 5000: 21
consecutive channel gaps, all inside the default channel range. -/
def c4_overflow_channels : List Nat :=
  [6000, 7000, 8000, 9000, 10000, 11000, 12000, 13000, 14000, 15000,
   16000, 17000, 18000, 19000, 20000, 21000, 22000, 23000, 24000, 25000,
   26000]

/-- Sync edge, 21 in-range channel gaps, closing sync edge. -/
def c4_overflow_input : List Nat :=
  5000 :: (c4_overflow_channels ++ [31000])

/-- A concrete `Synced` parser with 2 accumulated channels and an
unconsumed pending frame. -/
def c5_decoder : PpmParser :=
  { config := ParserConfig.default
    state := ParserState.Synced
    last_pulse_start := 5000
    working_frame := { chan_values := fun _ => 0, chan_count := 2 }
    parsed_frame := some { chan_values := fun _ => 0, chan_count := 7 } }

/-- A parser whose sync width has been configured to 8000. -/
def c6_decoder : PpmParser := PpmParser.new.set_sync_width 8000

/-- A concrete `Synced` parser holding an unconsumed pending frame, used
to observe a corrupt-pulse resynchronization. -/
def c9_decoder : PpmParser :=
  { config := ParserConfig.default
    state := ParserState.Synced
    last_pulse_start := 5000
    working_frame := { chan_values := fun _ => 0, chan_count := 3 }
    parsed_frame := some { chan_values := fun _ => 7, chan_count := 6 } }

/-- In `Scanning`, a gap below the configured sync width only updates the
last edge timestamp. -/
theorem handle_scan_small (p : PpmParser) (t : Nat)
    (hst : p.state = ParserState.Scanning)
    (h : pulseWidth p.config p.last_pulse_start t < p.config.min_sync_width) :
    handle_pulse_start p t = some { p with last_pulse_start := t } := by
  simp only [handle_pulse_start, hst]
  rw [if_neg (Nat.not_le.mpr h)]

/-- In `Scanning`, a gap at least the configured sync width resets the
channel counter and enters `Synced`. -/
theorem handle_scan_sync (p : PpmParser) (t : Nat)
    (hst : p.state = ParserState.Scanning)
    (h : p.config.min_sync_width ≤ pulseWidth p.config p.last_pulse_start t) :
    handle_pulse_start p t =
      some { p with last_pulse_start := t
                    state := ParserState.Synced
                    working_frame := { p.working_frame with chan_count := 0 } } := by
  simp only [handle_pulse_start, hst]
  rw [if_pos h]

/-- In `Synced`, a gap of at least the compile-time `MIN_SYNC_WIDTH` with
enough accumulated channels publishes the working frame and resets the
counter. -/
theorem handle_sync_publish (p : PpmParser) (t : Nat)
    (hst : p.state = ParserState.Synced)
    (hb : MIN_SYNC_WIDTH ≤ pulseWidth p.config p.last_pulse_start t)
    (hc : p.config.min_channels ≤ p.working_frame.chan_count) :
    handle_pulse_start p t =
      some { p with last_pulse_start := t
                    parsed_frame := some p.working_frame
                    working_frame := { p.working_frame with chan_count := 0 } } := by
  simp only [handle_pulse_start, hst]
  rw [if_pos hb, if_pos hc]

/-- In `Synced`, a boundary gap with too few accumulated channels clears
the pending frame and resets the counter. -/
theorem handle_sync_reject (p : PpmParser) (t : Nat)
    (hst : p.state = ParserState.Synced)
    (hb : MIN_SYNC_WIDTH ≤ pulseWidth p.config p.last_pulse_start t)
    (hc : p.working_frame.chan_count < p.config.min_channels) :
    handle_pulse_start p t =
      some { p with last_pulse_start := t
                    parsed_frame := none
                    working_frame := { p.working_frame with chan_count := 0 } } := by
  simp only [handle_pulse_start, hst]
  rw [if_pos hb, if_neg (Nat.not_le.mpr hc)]

/-- In `Synced`, an in-range channel gap below the sync constant appends
the width at the current index (which must be below capacity). -/
theorem handle_sync_channel (p : PpmParser) (t : Nat)
    (hst : p.state = ParserState.Synced)
    (hnb : pulseWidth p.config p.last_pulse_start t < MIN_SYNC_WIDTH)
    (hin : p.config.min_chan_value ≤ pulseWidth p.config p.last_pulse_start t ∧
        pulseWidth p.config p.last_pulse_start t ≤ p.config.max_chan_value)
    (hcap : p.working_frame.chan_count < MAX_PPM_CHANNELS) :
    handle_pulse_start p t =
      some { p with last_pulse_start := t
                    working_frame :=
                      { chan_values :=
                          arraySet p.working_frame.chan_values
                            p.working_frame.chan_count
                            (pulseWidth p.config p.last_pulse_start t)
                        chan_count := p.working_frame.chan_count + 1 } } := by
  simp only [handle_pulse_start, hst]
  rw [if_neg (Nat.not_le.mpr hnb), if_pos hin, if_pos hcap]

/-- In `Synced`, an in-range channel gap arriving with the working frame
already at capacity hits the unchecked array write: a panic, modelled as
`none`. -/
theorem handle_sync_overflow (p : PpmParser) (t : Nat)
    (hst : p.state = ParserState.Synced)
    (hnb : pulseWidth p.config p.last_pulse_start t < MIN_SYNC_WIDTH)
    (hin : p.config.min_chan_value ≤ pulseWidth p.config p.last_pulse_start t ∧
        pulseWidth p.config p.last_pulse_start t ≤ p.config.max_chan_value)
    (hcap : MAX_PPM_CHANNELS ≤ p.working_frame.chan_count) :
    handle_pulse_start p t = none := by
  simp only [handle_pulse_start, hst]
  rw [if_neg (Nat.not_le.mpr hnb), if_pos hin, if_neg (Nat.not_lt.mpr hcap)]

/-- In `Synced`, a gap below the sync constant and outside the channel
range discards the working frame and resynchronizes to `Scanning`. -/
theorem handle_sync_corrupt (p : PpmParser) (t : Nat)
    (hst : p.state = ParserState.Synced)
    (hnb : pulseWidth p.config p.last_pulse_start t < MIN_SYNC_WIDTH)
    (hout : ¬ (p.config.min_chan_value ≤ pulseWidth p.config p.last_pulse_start t ∧
        pulseWidth p.config p.last_pulse_start t ≤ p.config.max_chan_value)) :
    handle_pulse_start p t =
      some { p with last_pulse_start := t
                    state := ParserState.Scanning
                    working_frame := { p.working_frame with chan_count := 0 } } := by
  simp only [handle_pulse_start, hst]
  rw [if_neg (Nat.not_le.mpr hnb), if_neg hout]

/-- Running a concatenated pulse train is running the two halves in
sequence. -/
theorem runPulses_append (ts us : List Nat) :
    ∀ p : PpmParser,
      runPulses p (ts ++ us) = (runPulses p ts).bind fun q => runPulses q us := by
  induction ts with
  | nil => intro p; simp [runPulses]
  | cons t ts ih =>
    intro p
    simp only [List.cons_append, runPulses]
    cases handle_pulse_start p t with
    | none => simp
    | some q => simp [ih]

/-- `widthsOf` produces one gap width per edge. -/
theorem widthsOf_length (cfg : ParserConfig) :
    ∀ (ts : List Nat) (last : Nat), (widthsOf cfg last ts).length = ts.length := by
  intro ts
  induction ts with
  | nil => intro last; rfl
  | cons t ts ih => intro last; simp [widthsOf, ih]

/-- Indices below the write window of `writeSeq` are untouched. -/
theorem writeSeq_lt :
    ∀ (ws : List Nat) (f : Nat → Nat) (c i : Nat), i < c → writeSeq f c ws i = f i := by
  intro ws
  induction ws with
  | nil => intro f c i _; rfl
  | cons w ws ih =>
    intro f c i hi
    simp only [writeSeq]
    rw [ih (arraySet f c w) (c + 1) i (by omega)]
    have hne : i ≠ c := by omega
    simp [arraySet, hne]

/-- Inside the write window, `writeSeq` stores the written list in order. -/
theorem writeSeq_at :
    ∀ (ws : List Nat) (f : Nat → Nat) (c i : Nat), c ≤ i → i < c + ws.length →
      writeSeq f c ws i = ws.getD (i - c) 0 := by
  intro ws
  induction ws with
  | nil =>
    intro f c i h1 h2
    simp only [List.length_nil, Nat.add_zero] at h2
    omega
  | cons w ws ih =>
    intro f c i h1 h2
    simp only [writeSeq]
    by_cases hic : i = c
    · subst hic
      rw [writeSeq_lt ws (arraySet f i w) (i + 1) i (by omega)]
      have hz : i - i = 0 := Nat.sub_self i
      rw [hz]
      simp [arraySet]
    · have hci : c + 1 ≤ i := by omega
      rw [ih (arraySet f c w) (c + 1) i hci
        (by simp only [List.length_cons] at h2; omega)]
      rw [show i - c = i - (c + 1) + 1 from by omega, List.getD_cons_succ]

/-- A run entirely inside `Scanning` whose gaps are all below the
configured sync width only advances the last edge timestamp. -/
theorem runPulses_scanning :
    ∀ (ts : List Nat) (p : PpmParser), p.state = ParserState.Scanning →
      (∀ w ∈ widthsOf p.config p.last_pulse_start ts, w < p.config.min_sync_width) →
      runPulses p ts = some { p with last_pulse_start := lastOf p.last_pulse_start ts } := by
  intro ts
  induction ts with
  | nil => intro p hst _; rfl
  | cons t ts ih =>
    intro p hst hsmall
    have hw : pulseWidth p.config p.last_pulse_start t < p.config.min_sync_width :=
      hsmall _ (List.mem_cons_self _ _)
    simp only [runPulses, handle_scan_small p t hst hw, Option.some_bind]
    rw [ih { p with last_pulse_start := t } hst
      (fun w hw2 => hsmall w (List.mem_cons_of_mem _ hw2))]
    rfl

/-- A run entirely inside `Synced` whose gaps are all valid channel
values (and below the sync constant) appends exactly those widths, in
order, at consecutive indices. -/
theorem runPulses_channels :
    ∀ (ts : List Nat) (p : PpmParser), p.state = ParserState.Synced →
      (∀ w ∈ widthsOf p.config p.last_pulse_start ts,
          p.config.min_chan_value ≤ w ∧ w ≤ p.config.max_chan_value ∧
            w < MIN_SYNC_WIDTH) →
      p.working_frame.chan_count + ts.length ≤ MAX_PPM_CHANNELS →
      runPulses p ts = some { p with
        last_pulse_start := lastOf p.last_pulse_start ts
        working_frame :=
          { chan_values :=
              writeSeq p.working_frame.chan_values p.working_frame.chan_count
                (widthsOf p.config p.last_pulse_start ts)
            chan_count := p.working_frame.chan_count + ts.length } } := by
  intro ts
  induction ts with
  | nil => intro p hst _ _; rfl
  | cons t ts ih =>
    intro p hst hws hcap
    have h20 : MAX_PPM_CHANNELS = 20 := rfl
    have hlen : (t :: ts).length = ts.length + 1 := rfl
    have hw := hws _ (List.mem_cons_self _ _)
    have hcap1 : p.working_frame.chan_count < MAX_PPM_CHANNELS := by
      rw [hlen] at hcap; omega
    simp only [runPulses, handle_sync_channel p t hst hw.2.2 ⟨hw.1, hw.2.1⟩ hcap1,
      Option.some_bind]
    have hadd : p.working_frame.chan_count + (t :: ts).length =
        (p.working_frame.chan_count + 1) + ts.length := by
      rw [hlen]; omega
    rw [hadd]
    exact ih
      { p with last_pulse_start := t
               working_frame :=
                 { chan_values :=
                     arraySet p.working_frame.chan_values p.working_frame.chan_count
                       (pulseWidth p.config p.last_pulse_start t)
                   chan_count := p.working_frame.chan_count + 1 } }
      hst
      (fun w hw2 => hws w (List.mem_cons_of_mem _ hw2))
      (by show p.working_frame.chan_count + 1 + ts.length ≤ MAX_PPM_CHANNELS
          rw [hlen] at hcap; omega)

/-- A block of valid channel gaps followed by a boundary gap (per the
code, at least the compile-time `MIN_SYNC_WIDTH`) with enough channels
accumulated publishes exactly the written widths as the pending frame. -/
theorem runPulses_channels_boundary (p : PpmParser) (ts : List Nat) (t : Nat)
    (hst : p.state = ParserState.Synced)
    (hws : ∀ w ∈ widthsOf p.config p.last_pulse_start ts,
        p.config.min_chan_value ≤ w ∧ w ≤ p.config.max_chan_value ∧
          w < MIN_SYNC_WIDTH)
    (hcap : p.working_frame.chan_count + ts.length ≤ MAX_PPM_CHANNELS)
    (hb : MIN_SYNC_WIDTH ≤ pulseWidth p.config (lastOf p.last_pulse_start ts) t)
    (hmin : p.config.min_channels ≤ p.working_frame.chan_count + ts.length) :
    runPulses p (ts ++ [t]) = some { p with
      last_pulse_start := t
      parsed_frame := some
        { chan_values :=
            writeSeq p.working_frame.chan_values p.working_frame.chan_count
              (widthsOf p.config p.last_pulse_start ts)
          chan_count := p.working_frame.chan_count + ts.length }
      working_frame :=
        { chan_values :=
            writeSeq p.working_frame.chan_values p.working_frame.chan_count
              (widthsOf p.config p.last_pulse_start ts)
          chan_count := 0 } } := by
  have h1 := runPulses_channels ts p hst hws hcap
  have h2 := handle_sync_publish
    { p with
      last_pulse_start := lastOf p.last_pulse_start ts
      working_frame :=
        { chan_values :=
            writeSeq p.working_frame.chan_values p.working_frame.chan_count
              (widthsOf p.config p.last_pulse_start ts)
          chan_count := p.working_frame.chan_count + ts.length } }
    t hst hb hmin
  rw [runPulses_append, h1]
  simp only [Option.some_bind, runPulses, h2]

/-- C2 counterexample: the claimed formula uses a non-strict comparison
(`timestamp ≥ last` selects plain subtraction), but the source uses a
strict one.  At `last = timestamp = 10` (default configuration) the
claimed formula yields 0 while the code computes
`(max_ppm_time − 10) + 10 = 4294967295`. -/
theorem c2_width_claim_counterexample :
    pulseWidth ParserConfig.default 10 10 = 4294967295 ∧
    specWidthClaim ParserConfig.default 10 10 = 0 ∧
    pulseWidth ParserConfig.default 10 10 ≠ specWidthClaim ParserConfig.default 10 10 := by
  refine ⟨rfl, rfl, ?_⟩
  decide

/-- C2 amended: the gap width is `timestamp − last` when
`timestamp > last` (strictly), and `(timer_wrap_modulus − last) +
timestamp` otherwise — including at `timestamp = last`, where the result
is `max_ppm_time`, not 0.  With wrap modulus `M ≥ 15`, edges at
`last = M − 5` then `current = 10` yield width 15, identical to a
non-wrapping pair 15 apart. -/
theorem c2_width_amended :
    (∀ (cfg : ParserConfig) (last t : Nat), last < t →
        pulseWidth cfg last t = t - last) ∧
    (∀ (cfg : ParserConfig) (last t : Nat), t ≤ last →
        pulseWidth cfg last t = cfg.max_ppm_time - last + t) ∧
    (∀ M : Nat, 15 ≤ M →
        pulseWidth { ParserConfig.default with max_ppm_time := M } (M - 5) 10 = 15) ∧
    (∀ (cfg : ParserConfig) (last : Nat), pulseWidth cfg last (last + 15) = 15) := by
  refine ⟨?_, ?_, ?_, ?_⟩
  · intro cfg last t h
    simp [pulseWidth, h]
  · intro cfg last t h
    simp [pulseWidth, Nat.not_lt.mpr h]
  · intro M hM
    have hns : ¬ (M - 5 < 10) := by omega
    simp only [pulseWidth, if_neg hns]
    show M - (M - 5) + 10 = 15
    omega
  · intro cfg last
    have h : last < last + 15 := by omega
    simp only [pulseWidth, if_pos h]
    omega

/-- C2 amended, witnessed at concrete inputs: a strictly later edge, a
strictly earlier (wrapped) edge, the wrap example with modulus 100, and
a non-wrapping pair 15 apart. -/
theorem c2_width_amended_witness :
    (10 < 25 ∧ pulseWidth ParserConfig.default 10 25 = 25 - 10) ∧
    (10 ≤ 25 ∧ pulseWidth ParserConfig.default 25 10 =
        ParserConfig.default.max_ppm_time - 25 + 10) ∧
    (15 ≤ 100 ∧
      pulseWidth { ParserConfig.default with max_ppm_time := 100 } 95 10 = 15) ∧
    pulseWidth ParserConfig.default 100 115 = 15 :=
  ⟨⟨by decide, c2_width_amended.1 ParserConfig.default 10 25 (by decide)⟩,
   ⟨by decide, c2_width_amended.2.1 ParserConfig.default 25 10 (by decide)⟩,
   ⟨by decide, c2_width_amended.2.2.1 100 (by decide)⟩,
   c2_width_amended.2.2.2 ParserConfig.default 100⟩

/-- C8: in every parser state, `next_frame` returns the pending frame
slot as-is and clears it, so a second immediate call returns nothing. -/
theorem c8_pull_frame_destructive :
    ∀ p : PpmParser,
      (PpmParser.next_frame p).1 = p.parsed_frame ∧
      (PpmParser.next_frame p).2 = { p with parsed_frame := none } ∧
      (PpmParser.next_frame (PpmParser.next_frame p).2).1 = none :=
  fun _ => ⟨rfl, rfl, rfl⟩

/-- C10: a fresh parser has `last_pulse_start = 0` and is `Scanning`, and
the very first edge at any `t` at least the (default) configured sync
width immediately moves it to `Synced`: the interval from the fictitious
edge at time 0 counts as a real gap. -/
theorem c10_first_edge_sync (t : Nat)
    (ht : PpmParser.new.config.min_sync_width ≤ t) :
    PpmParser.new.last_pulse_start = 0 ∧
    PpmParser.new.state = ParserState.Scanning ∧
    handle_pulse_start PpmParser.new t =
      some { PpmParser.new with
        last_pulse_start := t
        state := ParserState.Synced
        working_frame := { PpmParser.new.working_frame with chan_count := 0 } } := by
  have h4 : PpmParser.new.config.min_sync_width = 4000 := rfl
  rw [h4] at ht
  have hlast : PpmParser.new.last_pulse_start = 0 := rfl
  have h0 : PpmParser.new.last_pulse_start < t := by rw [hlast]; omega
  have hw : pulseWidth PpmParser.new.config PpmParser.new.last_pulse_start t = t := by
    unfold pulseWidth
    rw [if_pos h0, hlast]
    exact Nat.sub_zero t
  refine ⟨rfl, rfl, ?_⟩
  apply handle_scan_sync PpmParser.new t rfl
  rw [hw, h4]
  omega

/-- C10 witnessed at the first edge arriving exactly at the default sync
width, 4000. -/
theorem c10_first_edge_sync_witness :
    PpmParser.new.config.min_sync_width ≤ 4000 ∧
    (PpmParser.new.last_pulse_start = 0 ∧
      PpmParser.new.state = ParserState.Scanning ∧
      handle_pulse_start PpmParser.new 4000 =
        some { PpmParser.new with
          last_pulse_start := 4000
          state := ParserState.Synced
          working_frame := { PpmParser.new.working_frame with chan_count := 0 } }) :=
  ⟨by decide, c10_first_edge_sync 4000 (by decide)⟩

/-- C5: at a boundary in `Synced` (a gap the code classifies as sync)
with fewer accumulated channels than `min_channels`, the pending frame
slot is cleared — even if an unconsumed frame was sitting there — the
channel counter resets to 0, and the next `next_frame` returns nothing. -/
theorem c5_short_frame_rejected (p : PpmParser) (t : Nat)
    (hst : p.state = ParserState.Synced)
    (hb : MIN_SYNC_WIDTH ≤ pulseWidth p.config p.last_pulse_start t)
    (hc : p.working_frame.chan_count < p.config.min_channels) :
    handle_pulse_start p t =
      some { p with last_pulse_start := t
                    parsed_frame := none
                    working_frame := { p.working_frame with chan_count := 0 } } ∧
    (handle_pulse_start p t).map (fun q => (PpmParser.next_frame q).1) = some none := by
  have h := handle_sync_reject p t hst hb hc
  exact ⟨h, by rw [h]; rfl⟩

/-- C5 witnessed: a `Synced` parser with 2 of 5 required channels and an
unconsumed pending frame sees a 5000-wide gap; the pending frame is
discarded and the counter resets. -/
theorem c5_short_frame_rejected_witness :
    c5_decoder.state = ParserState.Synced ∧
    MIN_SYNC_WIDTH ≤ pulseWidth c5_decoder.config c5_decoder.last_pulse_start 10000 ∧
    c5_decoder.working_frame.chan_count < c5_decoder.config.min_channels ∧
    (handle_pulse_start c5_decoder 10000 =
      some { c5_decoder with
        last_pulse_start := 10000
        parsed_frame := none
        working_frame := { c5_decoder.working_frame with chan_count := 0 } } ∧
    (handle_pulse_start c5_decoder 10000).map
      (fun q => (PpmParser.next_frame q).1) = some none) :=
  ⟨rfl, by decide, by decide,
   c5_short_frame_rejected c5_decoder 10000 rfl (by decide) (by decide)⟩

/-- C9: a corrupt-pulse resynchronization (gap below the sync constant
and outside the channel range while `Synced`) changes only the state,
the channel counter and the last edge timestamp; the pending frame —
and the stored channel values — survive, and the next `next_frame`
still returns the previously pending frame. -/
theorem c9_resync_preserves_pending (p : PpmParser) (t : Nat)
    (hst : p.state = ParserState.Synced)
    (hnb : pulseWidth p.config p.last_pulse_start t < MIN_SYNC_WIDTH)
    (hout : pulseWidth p.config p.last_pulse_start t < p.config.min_chan_value ∨
        p.config.max_chan_value < pulseWidth p.config p.last_pulse_start t) :
    handle_pulse_start p t =
      some { p with last_pulse_start := t
                    state := ParserState.Scanning
                    working_frame := { p.working_frame with chan_count := 0 } } ∧
    (handle_pulse_start p t).map (fun q => (PpmParser.next_frame q).1) =
      some p.parsed_frame := by
  have hout2 : ¬ (p.config.min_chan_value ≤ pulseWidth p.config p.last_pulse_start t ∧
      pulseWidth p.config p.last_pulse_start t ≤ p.config.max_chan_value) := by
    rcases hout with h | h
    · exact fun hin => absurd hin.1 (Nat.not_le.mpr h)
    · exact fun hin => absurd hin.2 (Nat.not_le.mpr h)
  have h := handle_sync_corrupt p t hst hnb hout2
  exact ⟨h, by rw [h]; rfl⟩

/-- C9 witnessed: a `Synced` parser with a pending frame sees a gap of
3000 (above the channel maximum 2200, below the sync constant 4000); it
returns to `Scanning` and the pending frame is still returned by the
next `next_frame`. -/
theorem c9_resync_preserves_pending_witness :
    c9_decoder.state = ParserState.Synced ∧
    pulseWidth c9_decoder.config c9_decoder.last_pulse_start 8000 < MIN_SYNC_WIDTH ∧
    c9_decoder.config.max_chan_value <
      pulseWidth c9_decoder.config c9_decoder.last_pulse_start 8000 ∧
    (handle_pulse_start c9_decoder 8000 =
      some { c9_decoder with
        last_pulse_start := 8000
        state := ParserState.Scanning
        working_frame := { c9_decoder.working_frame with chan_count := 0 } } ∧
    (handle_pulse_start c9_decoder 8000).map
      (fun q => (PpmParser.next_frame q).1) = some c9_decoder.parsed_frame) :=
  ⟨rfl, by decide, by decide,
   c9_resync_preserves_pending c9_decoder 8000 rfl (by decide) (Or.inr (by decide))⟩

/-- C7: starting in `Scanning`, any train of gaps each below the
configured sync width leaves the parser in `Scanning` with the working
frame, pending frame and configuration untouched; the first gap at least
the configured sync width then moves it to `Synced` with the channel
counter at 0. -/
theorem c7_scanning_sync (p : PpmParser) (ts : List Nat) (t : Nat)
    (hst : p.state = ParserState.Scanning)
    (hsmall : ∀ w ∈ widthsOf p.config p.last_pulse_start ts,
        w < p.config.min_sync_width)
    (hbig : p.config.min_sync_width ≤
        pulseWidth p.config (lastOf p.last_pulse_start ts) t) :
    runPulses p ts = some { p with last_pulse_start := lastOf p.last_pulse_start ts } ∧
    runPulses p (ts ++ [t]) =
      some { p with last_pulse_start := t
                    state := ParserState.Synced
                    working_frame := { p.working_frame with chan_count := 0 } } := by
  have h1 := runPulses_scanning ts p hst hsmall
  refine ⟨h1, ?_⟩
  rw [runPulses_append, h1]
  simp only [Option.some_bind, runPulses]
  rw [handle_scan_sync { p with last_pulse_start := lastOf p.last_pulse_start ts } t
    hst hbig]
  rfl

/-- C7 witnessed: a fresh parser discards two short gaps (100 each) and
then synchronizes on a 4800-wide gap. -/
theorem c7_scanning_sync_witness :
    PpmParser.new.state = ParserState.Scanning ∧
    (∀ w ∈ widthsOf PpmParser.new.config PpmParser.new.last_pulse_start [100, 200],
        w < PpmParser.new.config.min_sync_width) ∧
    PpmParser.new.config.min_sync_width ≤
      pulseWidth PpmParser.new.config
        (lastOf PpmParser.new.last_pulse_start [100, 200]) 5000 ∧
    (runPulses PpmParser.new [100, 200] =
      some { PpmParser.new with
        last_pulse_start := lastOf PpmParser.new.last_pulse_start [100, 200] } ∧
    runPulses PpmParser.new ([100, 200] ++ [5000]) =
      some { PpmParser.new with
        last_pulse_start := 5000
        state := ParserState.Synced
        working_frame := { PpmParser.new.working_frame with chan_count := 0 } }) :=
  ⟨rfl, by decide, by decide,
   c7_scanning_sync PpmParser.new [100, 200] 5000 rfl (by decide) (by decide)⟩

/-- C4 amended: in `Synced` just after a boundary (channel counter 0),
a run of gaps each in the valid channel range (and below the sync
constant, so none of them is itself a boundary), numbering at most
`MAX_PPM_CHANNELS`, followed by a closing boundary gap with at least
`min_channels` gaps accumulated, makes the next `next_frame` return
exactly one frame whose count equals the number of channel gaps and
whose values equal those gap widths in arrival order. -/
theorem c4_frame_contents (p : PpmParser) (ts : List Nat) (t : Nat)
    (hst : p.state = ParserState.Synced)
    (hc0 : p.working_frame.chan_count = 0)
    (hws : ∀ w ∈ widthsOf p.config p.last_pulse_start ts,
        p.config.min_chan_value ≤ w ∧ w ≤ p.config.max_chan_value ∧
          w < MIN_SYNC_WIDTH)
    (hcap : ts.length ≤ MAX_PPM_CHANNELS)
    (hb : MIN_SYNC_WIDTH ≤ pulseWidth p.config (lastOf p.last_pulse_start ts) t)
    (hmin : p.config.min_channels ≤ ts.length) :
    ∃ (q : PpmParser) (fr : PpmFrame),
      runPulses p (ts ++ [t]) = some q ∧
      (PpmParser.next_frame q).1 = some fr ∧
      fr.chan_count = (widthsOf p.config p.last_pulse_start ts).length ∧
      fr.chan_count = ts.length ∧
      ∀ i : Nat, i < ts.length →
        fr.chan_values i = (widthsOf p.config p.last_pulse_start ts).getD i 0 := by
  have hcap2 : p.working_frame.chan_count + ts.length ≤ MAX_PPM_CHANNELS := by omega
  have hmin2 : p.config.min_channels ≤ p.working_frame.chan_count + ts.length := by
    omega
  have h := runPulses_channels_boundary p ts t hst hws hcap2 hb hmin2
  have hlen := widthsOf_length p.config ts p.last_pulse_start
  refine ⟨_, _, h, rfl, ?_, ?_, ?_⟩
  · show p.working_frame.chan_count + ts.length =
      (widthsOf p.config p.last_pulse_start ts).length
    omega
  · show p.working_frame.chan_count + ts.length = ts.length
    omega
  · intro i hi
    show writeSeq p.working_frame.chan_values p.working_frame.chan_count
        (widthsOf p.config p.last_pulse_start ts) i =
      (widthsOf p.config p.last_pulse_start ts).getD i 0
    have e := writeSeq_at (widthsOf p.config p.last_pulse_start ts)
      p.working_frame.chan_values p.working_frame.chan_count i (by omega) (by omega)
    rw [e, hc0, Nat.sub_zero]

/-- C4 witnessed: after a boundary, five channel gaps of widths 1500
each and a closing 4000-wide boundary produce one frame of count 5 with
those widths. -/
theorem c4_frame_contents_witness :
    c4_start.state = ParserState.Synced ∧
    c4_start.working_frame.chan_count = 0 ∧
    (∀ w ∈ widthsOf c4_start.config c4_start.last_pulse_start
        [5500, 7000, 8500, 10000, 11500],
      c4_start.config.min_chan_value ≤ w ∧ w ≤ c4_start.config.max_chan_value ∧
        w < MIN_SYNC_WIDTH) ∧
    ([5500, 7000, 8500, 10000, 11500] : List Nat).length ≤ MAX_PPM_CHANNELS ∧
    MIN_SYNC_WIDTH ≤ pulseWidth c4_start.config
      (lastOf c4_start.last_pulse_start [5500, 7000, 8500, 10000, 11500]) 15500 ∧
    c4_start.config.min_channels ≤ ([5500, 7000, 8500, 10000, 11500] : List Nat).length ∧
    (∃ (q : PpmParser) (fr : PpmFrame),
      runPulses c4_start ([5500, 7000, 8500, 10000, 11500] ++ [15500]) = some q ∧
      (PpmParser.next_frame q).1 = some fr ∧
      fr.chan_count = (widthsOf c4_start.config c4_start.last_pulse_start
        [5500, 7000, 8500, 10000, 11500]).length ∧
      fr.chan_count = ([5500, 7000, 8500, 10000, 11500] : List Nat).length ∧
      ∀ i : Nat, i < ([5500, 7000, 8500, 10000, 11500] : List Nat).length →
        fr.chan_values i = (widthsOf c4_start.config c4_start.last_pulse_start
          [5500, 7000, 8500, 10000, 11500]).getD i 0) :=
  ⟨rfl, rfl, by decide, by decide, by decide, by decide,
   c4_frame_contents c4_start [5500, 7000, 8500, 10000, 11500] 15500 rfl rfl
     (by decide) (by decide) (by decide) (by decide)⟩

/-- C4 counterexample: with 21 consecutive in-range channel gaps between
two boundaries the run aborts in the unchecked array write (a panic),
so no parser survives to the closing boundary and no frame with count 21
is ever produced, contrary to the claim read without a capacity bound. -/
theorem c4_frame_contents_counterexample :
    (∀ w ∈ widthsOf PpmParser.new.config 5000 c4_overflow_channels,
        PpmParser.new.config.min_chan_value ≤ w ∧
          w ≤ PpmParser.new.config.max_chan_value ∧ w < MIN_SYNC_WIDTH) ∧
    (runPulses PpmParser.new [5000]).map PpmParser.state = some ParserState.Synced ∧
    runPulses PpmParser.new c4_overflow_input = none :=
  ⟨by decide, rfl, rfl⟩

/-- C3: the claim that `handle_edge` never panics and never indexes the
values array out of bounds fails.  A default parser synchronized at
t = 4000 and fed 21 consecutive in-range channel gaps of 1500 reaches
channel count 20 after 20 gaps, and the 21st gap performs the unchecked
write `chan_values[20]` into the 20-element array: the run evaluates to
`none` (panic). -/
theorem c3_overflow_code_bug :
    (runPulses PpmParser.new (c3_input.take 21)).map
      (fun q => q.working_frame.chan_count) = some 20 ∧
    runPulses PpmParser.new c3_input = none :=
  ⟨rfl, rfl⟩

/-- C1: the claim that `Synced` boundary detection uses the configurable
`min_sync_width` fails.  With the sync width configured to 2490 (as the
crate's own test does), a gap of 2500 while `Synced` — at least the
configured threshold — is not treated as a boundary: the code compares
against the compile-time constant 4000, classifies 2500 as a corrupt
pulse (it exceeds `max_chan_value`) and falls back to `Scanning`. -/
theorem c1_sync_threshold_code_bug :
    c1_decoder.config.min_sync_width = 2490 ∧
    (runPulses c1_decoder [2490]).map PpmParser.state = some ParserState.Synced ∧
    pulseWidth c1_decoder.config 2490 4990 = 2500 ∧
    c1_decoder.config.min_sync_width ≤ pulseWidth c1_decoder.config 2490 4990 ∧
    (runPulses c1_decoder [2490, 4990]).map PpmParser.state = some ParserState.Scanning :=
  ⟨rfl, rfl, rfl, by decide, rfl⟩

/-- C6: the claim that a gap above `max_chan_value` but below the
configurable `min_sync_width` discards the frame and returns to
`Scanning` fails.  With the sync width configured to 8000, a gap of 4500
while `Synced` — above `max_chan_value` 2200 and below the configured
8000 — is handled by the boundary branch (4500 exceeds the compile-time
constant 4000): the parser stays `Synced` instead of returning to
`Scanning`. -/
theorem c6_corrupt_gap_code_bug :
    c6_decoder.config.min_sync_width = 8000 ∧
    (runPulses c6_decoder [8000]).map PpmParser.state = some ParserState.Synced ∧
    pulseWidth c6_decoder.config 8000 12500 = 4500 ∧
    c6_decoder.config.max_chan_value < pulseWidth c6_decoder.config 8000 12500 ∧
    pulseWidth c6_decoder.config 8000 12500 < c6_decoder.config.min_sync_width ∧
    (runPulses c6_decoder [8000, 12500]).map PpmParser.state = some ParserState.Synced :=
  ⟨rfl, rfl, rfl, by decide, by decide, rfl⟩
